import Mathlib

/-!
Verification of the Lumina-T2X demo/inference harness
(`src/lumina_t2i/demo.py` and `src/lumina_t2i/entry_point.py`).

We shallowly embed the orchestration logic of the demo: the worker
request loop of `model_main`, the front-end `on_submit` handler, the
startup barrier protocol, the CLI flag declarations of both entry
points, and the per-request seed / resolution / conditioning handling.
External collaborators (torch, the tokenizer, the VAE, gradio widgets)
are modelled at their narrow interfaces: tensors carry their shape and
the generator state that produced them, images are opaque payloads.
-/

namespace Lumina

/-- A rendered PIL image, opaque to the orchestration layer. -/
structure Image where
  payload : Nat
deriving DecidableEq, Repr

/-- A message on the response queue: `model_main` puts either the rendered
image (`response_queue.put(img)`, demo.py line 172) or a `ModelFailure()`
sentinel (line 176). -/
inductive Msg where
| image : Image → Msg
| modelFailure : Msg
deriving DecidableEq, Repr

/-- The nine UI parameters carried by a request tuple. -/
inductive Param where
| caption | resolution | numSamplingSteps | cfgScale | solver
| tShift | seed | ntkScaling | proportionalAttn
deriving DecidableEq, Repr

/-- A request tuple as assembled by the UI (demo.py line 353). -/
structure Req where
  caption : String
  resolution : String
  numSamplingSteps : Nat
  cfgScale : ℚ
  solver : String
  tShift : Nat
  seed : Int
  ntkScaling : Bool
  proportionalAttn : Bool
deriving DecidableEq, Repr

/-- Order of the input components wired into `submit_btn.click`
(demo.py line 353):
`[cap, resolution, num_sampling_steps, cfg_scale, solver, t_shift, seed,
ntk_scaling, proportional_attn]`. -/
def submitInputOrder : List Param :=
  [.caption, .resolution, .numSamplingSteps, .cfgScale, .solver,
   .tShift, .seed, .ntkScaling, .proportionalAttn]

/-- Order in which `model_main` unpacks the tuple read from the request
queue (demo.py lines 102-104):
`(cap, resolution, num_sampling_steps, cfg_scale, solver, t_shift, seed,
ntk_scaling, proportional_attn) = request_queue.get()`. -/
def workerUnpackOrder : List Param :=
  [.caption, .resolution, .numSamplingSteps, .cfgScale, .solver,
   .tShift, .seed, .ntkScaling, .proportionalAttn]

/-- Observable effects of one iteration of the worker request loop. -/
structure LoopEffects where
  queuePut : List Msg
  logged : List String
  continuesLoop : Bool
deriving DecidableEq, Repr

/-- One iteration of the `while True` body of `model_main`
(demo.py lines 106-176), after the request tuple has been unpacked.
`tryResult` is the outcome of the `try` block: `.ok img` when sampling
and decoding succeed, `.error tb` when an exception with traceback `tb`
is raised anywhere inside the `try`.  On success the image is put on the
response queue when one is present (`if response_queue is not None`,
line 171).  On failure the traceback is printed (line 175) and a
`ModelFailure()` is put (line 176); the `except` handler accesses
`response_queue.put` unconditionally, so with a `None` queue the handler
itself would raise (modelled as `.error`).  The loop has no `break` or
`return`, so control returns to `request_queue.get()`
(`continuesLoop = true`). -/
def workerLoopBody (hasResponseQueue : Bool) (tryResult : Except String Image) :
    Except String LoopEffects :=
  match tryResult with
  | .ok img =>
      if hasResponseQueue then .ok ⟨[Msg.image img], [], true⟩
      else .ok ⟨[], [], true⟩
  | .error tb =>
      if hasResponseQueue then .ok ⟨[Msg.modelFailure], [tb], true⟩
      else .error tb

/-- The `on_submit` closure (demo.py lines 343-349): it puts the argument
tuple on every request queue, then performs a blocking
`response_queue.get()` — modelled by taking the received message as an
argument — and either raises `RuntimeError` (`.error ()`) when the result
is a `ModelFailure` instance, or returns the result unchanged. -/
def on_submit (requestQueues : List (List Req)) (args : Req) (response : Msg) :
    List (List Req) × Except Unit Image :=
  (requestQueues.map (fun q => q ++ [args]),
   match response with
   | .modelFailure => .error ()
   | .image img => .ok img)

/-- C1: per-request exceptions in the worker loop are caught, the
traceback is logged, a `ModelFailure` sentinel is put on the response
queue, and the loop continues (does not terminate). -/
theorem worker_catches_per_request_failures (tb : String) :
    workerLoopBody true (.error tb) = .ok ⟨[Msg.modelFailure], [tb], true⟩ := by
  rfl

/-- C2: `on_submit` raises a `RuntimeError` carrying no request-specific
payload exactly when the received result is a `ModelFailure`, and
otherwise returns the received image unchanged. -/
theorem on_submit_failure_raises_else_returns
    (queues : List (List Req)) (args : Req) (img : Image) :
    (on_submit queues args .modelFailure).2 = .error () ∧
    (on_submit queues args (.image img)).2 = .ok img := by
  exact ⟨rfl, rfl⟩

/-- C3: the UI transmits exactly nine parameters in a fixed order, the
worker unpacks them in the same order, and every message the worker puts
on the response queue is either a rendered image or the failure marker. -/
theorem request_tuple_order_and_response_alphabet :
    workerUnpackOrder = submitInputOrder ∧
    submitInputOrder.length = 9 ∧
    ∀ (hq : Bool) (r : Except String Image) (eff : LoopEffects),
      workerLoopBody hq r = .ok eff →
      ∀ m ∈ eff.queuePut, (∃ i, m = Msg.image i) ∨ m = Msg.modelFailure := by
  refine ⟨rfl, rfl, ?_⟩
  intro hq r eff _ m _
  cases m with
  | image i => exact Or.inl ⟨i, rfl⟩
  | modelFailure => exact Or.inr rfl

/-- Witness for C3 at a concrete loop iteration: the failed iteration
puts only the failure marker. -/
theorem request_tuple_order_witness :
    (∃ i, Msg.modelFailure = Msg.image i) ∨ Msg.modelFailure = Msg.modelFailure :=
  request_tuple_order_and_response_alphabet.2.2 true (.error "boom")
    ⟨[Msg.modelFailure], ["boom"], true⟩ rfl Msg.modelFailure (by simp)

/-- `mp.Barrier(args.num_gpus + 1)` (demo.py line 247): the startup
barrier is created with one party per worker plus the front end. -/
def barrierParties (numGpus : Nat) : Nat := numGpus + 1

/-- Phase of a worker process in the startup protocol: loading its model
(demo.py lines 50-96), waiting on the barrier (line 98), or serving the
request loop (lines 100-176). -/
inductive WPhase where
| loading | atBarrier | serving
deriving DecidableEq, Repr

/-- Phase of the front-end process: starting (building the UI,
demo.py lines 255-355), waiting on the barrier (line 357), or running
the launched UI (line 358), which is when requests can be delivered. -/
inductive FPhase where
| starting | atBarrier | uiUp
deriving DecidableEq, Repr

/-- Global state of the startup protocol: one phase per worker process
plus the front-end phase. -/
structure SysState where
  workers : List WPhase
  frontend : FPhase
deriving DecidableEq, Repr

/-- Initial state after `main` spawns the workers (demo.py lines 248-253):
every worker is loading, the front end is building the UI. -/
def startInit (numGpus : Nat) : SysState :=
  ⟨List.replicate numGpus .loading, .starting⟩

/-- Interleaving steps of the startup protocol.  A worker reaches the
barrier only after finishing loading (`mp_barrier.wait()` is the first
statement after the checkpoint load, demo.py line 98); the front end
reaches it after building the UI (line 357); the barrier releases all
`numGpus + 1` parties together, only once every party is waiting, after
which workers serve and the front end launches the UI. -/
inductive StartStep : SysState → SysState → Prop where
| workerArrive (i : Nat) (s : SysState) (h : s.workers.get? i = some .loading) :
    StartStep s ⟨s.workers.set i .atBarrier, s.frontend⟩
| frontArrive (s : SysState) (h : s.frontend = .starting) :
    StartStep s ⟨s.workers, .atBarrier⟩
| barrierRelease (s : SysState) (hw : ∀ w ∈ s.workers, w = WPhase.atBarrier)
    (hf : s.frontend = .atBarrier) :
    StartStep s ⟨s.workers.map (fun _ => .serving), .uiUp⟩

/-- States reachable from startup with `n` workers. -/
abbrev StartReachable (n : Nat) (s : SysState) : Prop :=
  Relation.ReflTransGen StartStep (startInit n) s

lemma startStep_inv {s t : SysState}
    (hst : StartStep s t)
    (ih : s.frontend = .uiUp → ∀ w ∈ s.workers, w = WPhase.serving) :
    t.frontend = .uiUp → ∀ w ∈ t.workers, w = WPhase.serving := by
  cases hst with
  | workerArrive i s h =>
      intro hui w hw
      have hmem : WPhase.loading ∈ s.workers := List.get?_mem h
      have := ih hui WPhase.loading hmem
      exact absurd this (by simp)
  | frontArrive s h =>
      intro hui
      exact absurd hui (by simp)
  | barrierRelease s hw hf =>
      intro _ w hw2
      simp only [List.mem_map] at hw2
      obtain ⟨_, _, rfl⟩ := hw2
      rfl

/-- C4: the barrier has `num_gpus + 1` parties, and in every reachable
state of the startup protocol, once the front end has launched the UI
(the only point from which requests can be delivered), every worker has
passed the barrier and is serving — i.e. has finished loading its
model. -/
lemma startReachable_inv (n : Nat) (s : SysState) (h : StartReachable n s) :
    s.frontend = .uiUp → ∀ w ∈ s.workers, w = WPhase.serving := by
  induction h with
  | refl => intro h0; exact absurd h0 (by simp [startInit])
  | tail _ hstep ih => exact startStep_inv hstep ih

theorem barrier_gates_ui_launch (n : Nat) (s : SysState)
    (h : StartReachable n s) (hui : s.frontend = .uiUp) :
    barrierParties n = n + 1 ∧ ∀ w ∈ s.workers, w = WPhase.serving :=
  ⟨rfl, startReachable_inv n s h hui⟩

/-- Witness for C4: a concrete complete startup run with one worker. -/
theorem barrier_gates_ui_launch_witness :
    barrierParties 1 = 1 + 1 ∧ WPhase.serving = WPhase.serving := by
  have h1 : StartStep (startInit 1) ⟨[WPhase.atBarrier], FPhase.starting⟩ := by
    have := StartStep.workerArrive 0 (startInit 1) (by simp [startInit])
    simpa [startInit] using this
  have h2 : StartStep ⟨[WPhase.atBarrier], FPhase.starting⟩
      ⟨[WPhase.atBarrier], FPhase.atBarrier⟩ :=
    StartStep.frontArrive _ rfl
  have h3 : StartStep ⟨[WPhase.atBarrier], FPhase.atBarrier⟩
      ⟨[WPhase.serving], FPhase.uiUp⟩ := by
    have := StartStep.barrierRelease ⟨[WPhase.atBarrier], FPhase.atBarrier⟩
      (by simp) rfl
    simpa using this
  have hreach : StartReachable 1 ⟨[WPhase.serving], FPhase.uiUp⟩ :=
    Relation.ReflTransGen.head h1 (Relation.ReflTransGen.head h2
      (Relation.ReflTransGen.single h3))
  have hmain := barrier_gates_ui_launch 1 ⟨[WPhase.serving], FPhase.uiUp⟩ hreach rfl
  exact ⟨hmain.1, hmain.2 WPhase.serving (by simp)⟩

/-- State of the request/response handoff between the front end and the
single worker that holds the response queue (the only configuration
`main` admits, since `num_gpus` must be 1).  `pendingReq` counts tuples
sitting in the request queue, `processing` is true while the worker is
between `request_queue.get()` and its `response_queue.put`, `pendingResp`
counts messages in the response queue, and `frontWaiting` is true while
`on_submit` blocks on `response_queue.get()`. -/
structure FlowState where
  pendingReq : Nat
  processing : Nat
  pendingResp : Nat
  frontWaiting : Nat
deriving DecidableEq, Repr

/-- Interleaving steps of the handoff (flags are 0/1 valued).  `submit`
is `on_submit` putting one tuple and starting its blocking `get`
(demo.py lines 344-346); a blocking `get` has no timeout and no
cancellation, so `on_submit` can run again only after `frontReceive`.
Gradio serializes submissions (`demo.queue()`), so `submit` fires only
when the front end is not already waiting. -/
inductive FlowStep : FlowState → FlowState → Prop where
| submit (s : FlowState) (h : s.frontWaiting = 0) :
    FlowStep s ⟨s.pendingReq + 1, s.processing, s.pendingResp, 1⟩
| workerTake (s : FlowState) (h1 : 0 < s.pendingReq) (h2 : s.processing = 0) :
    FlowStep s ⟨s.pendingReq - 1, 1, s.pendingResp, s.frontWaiting⟩
| workerRespond (s : FlowState) (h : s.processing = 1) :
    FlowStep s ⟨s.pendingReq, 0, s.pendingResp + 1, s.frontWaiting⟩
| frontReceive (s : FlowState) (h1 : s.frontWaiting = 1) (h2 : 0 < s.pendingResp) :
    FlowStep s ⟨s.pendingReq, s.processing, s.pendingResp - 1, 0⟩

/-- Initial handoff state: empty queues, idle worker and front end. -/
def flowInit : FlowState := ⟨0, 0, 0, 0⟩

/-- Handoff states reachable from the initial state. -/
abbrev FlowReachable (s : FlowState) : Prop :=
  Relation.ReflTransGen FlowStep flowInit s

/-- Total work in flight: queued requests, the request being processed,
and queued responses. -/
def inFlight (s : FlowState) : Nat :=
  s.pendingReq + s.processing + s.pendingResp

lemma flowStep_inv {s t : FlowState} (hst : FlowStep s t)
    (ih : inFlight s = s.frontWaiting ∧ s.frontWaiting ≤ 1) :
    inFlight t = t.frontWaiting ∧ t.frontWaiting ≤ 1 := by
  cases hst with
  | submit h => simp only [inFlight] at ih ⊢; omega
  | workerTake h1 h2 => simp only [inFlight] at ih ⊢; omega
  | workerRespond h => simp only [inFlight] at ih ⊢; omega
  | frontReceive h1 h2 => simp only [inFlight] at ih ⊢; omega

lemma flowReachable_inv (s : FlowState) (h : FlowReachable s) :
    inFlight s = s.frontWaiting ∧ s.frontWaiting ≤ 1 := by
  induction h with
  | refl => exact ⟨rfl, by simp [flowInit]⟩
  | tail _ hstep ih => exact flowStep_inv hstep ih

/-- C5: at most one request is in flight per worker at any reachable
state of the handoff — in fact the in-flight count is exactly 1 while
`on_submit` is blocked and 0 otherwise — and a single `on_submit` call
appends exactly one tuple to each request queue. -/
theorem at_most_one_in_flight (s : FlowState) (h : FlowReachable s)
    (queues : List (List Req)) (args : Req) (m : Msg) :
    inFlight s ≤ 1 ∧
    (on_submit queues args m).1 = queues.map (fun q => q ++ [args]) := by
  refine ⟨?_, rfl⟩
  obtain ⟨h1, h2⟩ := flowReachable_inv s h
  omega

/-- Witness for C5 at a concrete reachable state (one submission taken by
the worker) and a concrete pair of queues. -/
theorem at_most_one_in_flight_witness :
    inFlight ⟨0, 1, 0, 1⟩ ≤ 1 ∧
    (on_submit [[], []] ⟨"cap", "1024x1024", 60, 4, "euler", 4, 1, true, true⟩
        .modelFailure).1
      = [[⟨"cap", "1024x1024", 60, 4, "euler", 4, 1, true, true⟩],
         [⟨"cap", "1024x1024", 60, 4, "euler", 4, 1, true, true⟩]] := by
  have h1 : FlowStep flowInit ⟨1, 0, 0, 1⟩ :=
    FlowStep.submit flowInit rfl
  have h2 : FlowStep ⟨1, 0, 0, 1⟩ ⟨0, 1, 0, 1⟩ :=
    FlowStep.workerTake ⟨1, 0, 0, 1⟩ (by decide) rfl
  have hreach : FlowReachable ⟨0, 1, 0, 1⟩ :=
    Relation.ReflTransGen.head h1 (Relation.ReflTransGen.single h2)
  exact at_most_one_in_flight ⟨0, 1, 0, 1⟩ hreach
    [[], []] ⟨"cap", "1024x1024", 60, 4, "euler", 4, 1, true, true⟩ .modelFailure

/-- Observable events of the startup sequence of `main` (demo.py 226-253). -/
inductive MainEvent where
| parsedArgs
| createdQueuesAndBarrier
| spawnedWorker (i : Nat)
deriving DecidableEq, Repr

/-- The startup prefix of `main` (demo.py lines 226-253): parse the
arguments, then `if args.num_gpus != 1: raise NotImplementedError`
(lines 239-240), and only past that check create the queues, the barrier
and one worker process per GPU (lines 244-253).  A raise yields `.error`
carrying the events that happened before it. -/
def mainStartup (numGpus : Int) : Except (List MainEvent) (List MainEvent) :=
  if numGpus ≠ 1 then .error [.parsedArgs]
  else .ok ([MainEvent.parsedArgs, .createdQueuesAndBarrier]
    ++ (List.range numGpus.toNat).map .spawnedWorker)

/-- Observable events of the setup sequence of `model_main` (demo.py 50-98). -/
inductive SetupEvent where
| loadedTrainArgs
| createdLm
| createdTokenizer
| createdVae
| createdDit
| loadedCkpt
| barrierWait
deriving DecidableEq, Repr

/-- The setup prefix of `model_main` (demo.py lines 50-98): load the
training arguments, create the language model, then
`if args.num_gpus > 1: raise NotImplementedError` (lines 68-69), and
only past that check create the tokenizer, the VAE and the DiT, load the
checkpoint and wait on the barrier.  A raise yields `.error` carrying
the events that happened before it. -/
def modelMainSetup (numGpus : Int) : Except (List SetupEvent) (List SetupEvent) :=
  let before := [SetupEvent.loadedTrainArgs, .createdLm]
  if 1 < numGpus then .error before
  else .ok (before ++ [.createdTokenizer, .createdVae, .createdDit,
    .loadedCkpt, .barrierWait])

/-- C6: when `num_gpus ≠ 1`, `main` raises `NotImplementedError` before
creating any worker process; when `num_gpus > 1`, `model_main` raises
`NotImplementedError` after creating the language model; when
`num_gpus = 1` neither sequence raises. -/
theorem multi_gpu_rejected (n : Int) :
    (n ≠ 1 → ∃ evs, mainStartup n = .error evs ∧
      (∀ i, MainEvent.spawnedWorker i ∉ evs)) ∧
    (1 < n → ∃ evs, modelMainSetup n = .error evs ∧
      SetupEvent.createdLm ∈ evs) ∧
    (mainStartup 1).isOk = true ∧
    (modelMainSetup 1).isOk = true := by
  refine ⟨?_, ?_, rfl, rfl⟩
  · intro hn
    refine ⟨[.parsedArgs], ?_, ?_⟩
    · simp [mainStartup, hn]
    · intro i
      simp
  · intro hn
    refine ⟨[.loadedTrainArgs, .createdLm], ?_, ?_⟩
    · simp [modelMainSetup, hn]
    · simp

/-- Witness for C6 at `num_gpus = 2`: both checks fire concretely. -/
theorem multi_gpu_rejected_witness :
    (∃ evs, mainStartup 2 = .error evs ∧
      (∀ i, MainEvent.spawnedWorker i ∉ evs)) ∧
    (∃ evs, modelMainSetup 2 = .error evs ∧ SetupEvent.createdLm ∈ evs) ∧
    (mainStartup 1).isOk = true ∧
    (modelMainSetup 1).isOk = true :=
  ⟨(multi_gpu_rejected 2).1 (by decide),
   (multi_gpu_rejected 2).2.1 (by decide),
   (multi_gpu_rejected 2).2.2.1,
   (multi_gpu_rejected 2).2.2.2⟩

/-- Default value of a CLI flag, as written in the declaration.  A
numeric default is the exact rational `num / den` of its literal
(`1e-6` is `numD 1 1000000`); `noneD` covers both an explicit
`default=None` and an omitted default (both yield `None` at runtime). -/
inductive FlagDefault where
| noneD
| strD (s : String)
| boolD (b : Bool)
| numD (num : Int) (den : Nat)
deriving DecidableEq, Repr

/-- A CLI flag declaration: its long name, its permitted choices when
constrained (`none` in a choice list is the Python `None` choice), and
its default. -/
structure FlagDef where
  long : String
  choices : Option (List (Option String))
  dflt : FlagDefault
deriving DecidableEq, Repr

/-- `parse_transport_args` (demo.py lines 185-192). -/
def demoTransportFlags : List FlagDef :=
  [⟨"path-type", some [some "Linear", some "GVP", some "VP"], .strD "Linear"⟩,
   ⟨"prediction", some [some "velocity", some "score", some "noise"], .strD "velocity"⟩,
   ⟨"loss-weight", some [none, some "velocity", some "likelihood"], .noneD⟩,
   ⟨"sample-eps", none, .noneD⟩,
   ⟨"train-eps", none, .noneD⟩]

/-- `parse_ode_args` (demo.py lines 195-200); `store_true` flags default
to `False`. -/
def demoOdeFlags : List FlagDef :=
  [⟨"atol", none, .numD 1 1000000⟩,
   ⟨"rtol", none, .numD 1 1000⟩,
   ⟨"reverse", none, .boolD false⟩,
   ⟨"likelihood", none, .boolD false⟩]

/-- `parse_sde_args` (demo.py lines 203-215). -/
def demoSdeFlags : List FlagDef :=
  [⟨"sampling-method", some [some "Euler", some "Heun"], .strD "Euler"⟩,
   ⟨"diffusion-form",
    some [some "constant", some "SBDM", some "sigma", some "linear",
      some "decreasing", some "increasing-decreasing"], .strD "sigma"⟩,
   ⟨"diffusion-norm", none, .numD 1 1⟩,
   ⟨"last-step", some [none, some "Mean", some "Tweedie", some "Euler"], .strD "Mean"⟩,
   ⟨"last-step-size", none, .numD 4 100⟩]

/-- `transport_options` (entry_point.py lines 35-41). -/
def clickTransportOptions : List FlagDef :=
  [⟨"path-type", some [some "Linear", some "GVP", some "VP"], .strD "Linear"⟩,
   ⟨"prediction", some [some "velocity", some "score", some "noise"], .strD "velocity"⟩,
   ⟨"loss-weight", some [none, some "velocity", some "likelihood"], .noneD⟩,
   ⟨"sample-eps", none, .noneD⟩,
   ⟨"train-eps", none, .noneD⟩]

/-- `ode_options` (entry_point.py lines 43-48); `is_flag` options default
to `False`. -/
def clickOdeOptions : List FlagDef :=
  [⟨"atol", none, .numD 1 1000000⟩,
   ⟨"rtol", none, .numD 1 1000⟩,
   ⟨"reverse", none, .boolD false⟩,
   ⟨"likelihood", none, .boolD false⟩]

/-- `sde_options` (entry_point.py lines 50-56). -/
def clickSdeOptions : List FlagDef :=
  [⟨"sampling-method", some [some "Euler", some "Heun"], .strD "Euler"⟩,
   ⟨"diffusion-form",
    some [some "constant", some "SBDM", some "sigma", some "linear",
      some "decreasing", some "increasing-decreasing"], .strD "sigma"⟩,
   ⟨"diffusion-norm", none, .numD 1 1⟩,
   ⟨"last-step", some [none, some "Mean", some "Tweedie", some "Euler"], .strD "Mean"⟩,
   ⟨"last-step-size", none, .numD 4 100⟩]

/-- `global_options` (entry_point.py lines 26-33). -/
def clickGlobalOptions : List FlagDef :=
  [⟨"num_gpus", none, .numD 1 1⟩,
   ⟨"ckpt", none, .noneD⟩,
   ⟨"ema", none, .boolD false⟩,
   ⟨"precision", some [some "bf16", some "fp32"], .strD "bf16"⟩,
   ⟨"config", none, .strD "cofing/infer/settings.yaml"⟩,
   ⟨"token", none, .boolD false⟩]

/-- Flags accepted by the `infer` command (entry_point.py lines 65-70):
only the `global_options` decorators are applied. -/
def inferCmdFlags : List FlagDef := clickGlobalOptions

/-- Flags accepted by the `infer_sde` command (entry_point.py lines
73-79): only `add_options(global_options)` is applied — the
`sde_options` list is never attached to this command. -/
def inferSdeCmdFlags : List FlagDef := clickGlobalOptions

/-- Flags accepted by the `transport` command (entry_point.py lines
81-89): `global_options` plus five inline `click.option` decorators
(lines 82-86). -/
def transportCmdFlags : List FlagDef :=
  clickGlobalOptions ++
  [⟨"path-type", some [some "Linear", some "GVP", some "VP"], .strD "Linear"⟩,
   ⟨"prediction", some [some "velocity", some "score", some "noise"], .strD "velocity"⟩,
   ⟨"loss-weight", some [none, some "velocity", some "likelihood"], .noneD⟩,
   ⟨"sample-eps", none, .noneD⟩,
   ⟨"train-eps", none, .noneD⟩]

/-- Flags accepted by the argparse CLI of `demo.py` (lines 226-235):
the global arguments plus the transport and ODE groups —
`parse_sde_args` is defined but never called by `main`. -/
def demoMainFlags : List FlagDef :=
  [⟨"num_gpus", none, .numD 1 1⟩,
   ⟨"ckpt", none, .noneD⟩,
   ⟨"ema", none, .boolD false⟩,
   ⟨"precision", some [some "bf16", some "fp32"], .strD "bf16"⟩]
  ++ demoTransportFlags ++ demoOdeFlags

/-- C7 counterexample: the `infer_sde` command does not accept the
`--sampling-method` flag of the SDE group (the `sde_options` list is
never attached to it), refuting the final clause of the claim. -/
theorem cli_flags_counterexample :
    "sampling-method" ∉ inferSdeCmdFlags.map FlagDef.long := by
  decide

/-- C7 amended: the transport, ODE and SDE flag groups declared in
demo.py and entry_point.py agree flag by flag on name, permitted choices
and default value; the `transport` command accepts the transport group
and demo.py accepts the transport and ODE groups, but `infer_sde`
accepts only the global options (its SDE group is never attached) and
demo.py never parses the SDE group. -/
theorem cli_flags_mirror :
    demoTransportFlags = clickTransportOptions ∧
    demoOdeFlags = clickOdeOptions ∧
    demoSdeFlags = clickSdeOptions ∧
    (∀ f ∈ clickTransportOptions, f ∈ transportCmdFlags) ∧
    (∀ f ∈ demoTransportFlags ++ demoOdeFlags, f ∈ demoMainFlags) ∧
    inferSdeCmdFlags = clickGlobalOptions ∧
    (∀ f ∈ clickSdeOptions, f ∉ inferSdeCmdFlags) := by
  refine ⟨rfl, rfl, rfl, ?_, ?_, rfl, ?_⟩ <;> decide

/-- Witness for the amended C7 at the concrete flags `--path-type`
(accepted by the `transport` command) and `--sampling-method` (not
accepted by `infer_sde`). -/
theorem cli_flags_mirror_witness :
    (⟨"path-type", some [some "Linear", some "GVP", some "VP"],
      FlagDefault.strD "Linear"⟩ : FlagDef) ∈ transportCmdFlags ∧
    (⟨"sampling-method", some [some "Euler", some "Heun"],
      FlagDefault.strD "Euler"⟩ : FlagDef) ∉ inferSdeCmdFlags :=
  ⟨cli_flags_mirror.2.2.2.1 _ (by decide),
   cli_flags_mirror.2.2.2.2.2.2 _ (by decide)⟩

/-- State of the global torch random generator, modelled at its narrow
interface: seeding makes the state a function of the seed alone, and
each draw advances the state. -/
abbrev GenState := Int

/-- `torch.random.manual_seed(seed)`: the resulting generator state is
determined by the seed. -/
def torchManualSeed (seed : Int) : GenState := seed

/-- A tensor at the orchestration interface: its shape, and the
generator state it was drawn from (the actual float contents are owned
by torch and out of scope; two draws from equal states with equal
shapes are identical). -/
structure Tensor where
  shape : List Nat
  src : GenState
deriving DecidableEq, Repr

/-- `torch.randn(shape)`: draws from the current generator state and
advances it. -/
def torchRandn (shape : List Nat) (g : GenState) : Tensor × GenState :=
  (⟨shape, g⟩, g + 1)

/-- `z.repeat(2, 1, 1, 1)` (demo.py line 134): the batch dimension is
multiplied by 2, the data is replicated, not redrawn. -/
def repeatBatch2 (t : Tensor) : Tensor :=
  ⟨match t.shape with
    | b :: rest => 2 * b :: rest
    | [] => [], t.src⟩

/-- The generator state used for the initial noise draw (demo.py lines
131-132): `if int(seed) != 0: torch.random.manual_seed(int(seed))` —
the slider delivers a whole number, so `int(seed)` is the seed itself. -/
def seedUsedGen (seed : Int) (g : GenState) : GenState :=
  if seed ≠ 0 then torchManualSeed seed else g

/-- Lines 131-134 of demo.py: optional reseed, then
`z = torch.randn([1, 4, latent_h, latent_w])` and
`z = z.repeat(2, 1, 1, 1)`. -/
def drawInitialNoise (seed : Int) (latentH latentW : Nat) (g : GenState) :
    Tensor × GenState :=
  let g1 := seedUsedGen seed g
  let zg := torchRandn [1, 4, latentH, latentW] g1
  (repeatBatch2 zg.1, zg.2)

/-- C8: the generator is reseeded with the seed exactly when it is
nonzero, the reseed happens before the noise draw, so two requests with
the same nonzero seed and the same latent resolution draw identical
initial noise regardless of prior generator state, while seed 0 leaves
the generator state untouched before the draw. -/
theorem seed_determines_initial_noise (seed : Int) (lh lw : Nat)
    (g g2 : GenState) :
    (seed ≠ 0 → seedUsedGen seed g = torchManualSeed seed ∧
      (drawInitialNoise seed lh lw g).1 = (drawInitialNoise seed lh lw g2).1) ∧
    (seed = 0 → seedUsedGen seed g = g) := by
  constructor
  · intro h
    refine ⟨if_pos h, ?_⟩
    simp [drawInitialNoise, seedUsedGen, torchRandn, if_pos h]
  · intro h
    simp [seedUsedGen, h]

/-- Witness for C8: seed 1 forces identical noise from two distinct
generator states; seed 0 leaves a concrete state untouched. -/
theorem seed_determines_initial_noise_witness :
    (seedUsedGen 1 5 = torchManualSeed 1 ∧
      (drawInitialNoise 1 128 128 5).1 = (drawInitialNoise 1 128 128 99).1) ∧
    seedUsedGen 0 5 = 5 :=
  ⟨(seed_determines_initial_noise 1 128 128 5 99).1 (by decide),
   (seed_determines_initial_noise 0 128 128 5 99).2 rfl⟩

/-- Python `str.split(sep)` for a single-character separator: splits at
every occurrence, keeping empty parts, and returns `[""]` on the empty
string — exactly the CPython behaviour used on the resolution string. -/
def splitOnChar (c : Char) : List Char → List (List Char)
  | [] => [[]]
  | x :: xs =>
    let r := splitOnChar c xs
    if x = c then [] :: r
    else
      match r with
      | [] => [[x]]
      | y :: ys => (x :: y) :: ys

/-- The numeric value of a decimal digit character, `none` otherwise. -/
def charDigit (c : Char) : Option Nat :=
  if c.isDigit then some (c.toNat - 48) else none

/-- Accumulate decimal digits left to right. -/
def digitsVal : List Char → Nat → Option Nat
  | [], acc => some acc
  | c :: cs, acc =>
    match charDigit c with
    | some d => digitsVal cs (10 * acc + d)
    | none => none

/-- Python `int(s)` restricted to the unsigned decimal strings produced
by the resolution dropdown: `none` (a raised `ValueError`) on the empty
string or any non-digit character. -/
def pyInt (xs : List Char) : Option Nat :=
  match xs with
  | [] => none
  | _ :: _ => digitsVal xs 0

/-- `resolution.split(" ")[-1]` (demo.py line 127): the last
whitespace-split token, which discards any `"(Extrapolation) "`
prefix of the dropdown choices. -/
def lastSpaceToken (s : String) : List Char :=
  (splitOnChar ' ' s.data).getLastD []

/-- Lines 127-129 of demo.py: take the last space token, split it on
`"x"` into exactly two parts (`w, h = resolution.split("x")`), convert
both with `int`; a failing unpack or conversion raises (`none`,
reported as a `ModelFailure` by the loop's exception handler). -/
def parseResolution (s : String) : Option (Nat × Nat) :=
  match splitOnChar 'x' (lastSpaceToken s) with
  | [ws, hs] =>
    match pyInt ws, pyInt hs with
    | some w, some h => some (w, h)
    | _, _ => none
  | _ => none

/-- The `samples` post-processing (demo.py lines 161-169): keep the
first batch entry (`samples[:1]`), decode it through the VAE, and
return `samples[0]`; only the first of the two CFG samples is ever
decoded. -/
def finalImage {α : Type} (decodeOne : α → Image) (batch : List α) :
    Option Image :=
  match (batch.take 1).map decodeOne with
  | [x] => some x
  | _ => none

/-- Lines 127-134 of demo.py composed: parse the resolution string into
`(w, h)`, take latent dimensions `w // 8` and `h // 8`, and draw the
initial noise `z = randn([1, 4, latent_h, latent_w]).repeat(2,1,1,1)`. -/
def workerNoise (resolution : String) (seed : Int) (g : GenState) :
    Option Tensor :=
  (parseResolution resolution).map
    (fun wh => (drawInitialNoise seed (wh.2 / 8) (wh.1 / 8) g).1)

/-- C9: the resolution string is reduced to its last space token, split
on `x` into width and height in that order, the latent dimensions are
`w / 8` and `h / 8`, the initial noise tensor has shape
`[2, 4, h / 8, w / 8]`, and only the first batch sample is decoded and
returned. -/
theorem resolution_parsing_and_noise_shape (s : String) (w h : Nat)
    (hp : parseResolution s = some (w, h)) (seed : Int) (g : GenState)
    {α : Type} (decodeOne : α → Image) (batch : List α) (b0 : α)
    (hb : batch.head? = some b0) :
    (workerNoise s seed g).map Tensor.shape = some [2, 4, h / 8, w / 8] ∧
    finalImage decodeOne batch = some (decodeOne b0) ∧
    parseResolution "(Extrapolation) 1024x2048" = some (1024, 2048) := by
  refine ⟨?_, ?_, by decide⟩
  · simp [workerNoise, hp, drawInitialNoise, torchRandn, repeatBatch2]
  · cases batch with
    | nil => simp at hb
    | cons a t =>
        simp only [List.head?_cons, Option.some.injEq] at hb
        subst hb
        simp [finalImage]

/-- Witness for C9 at the dropdown choice `"(Extrapolation) 1024x2048"`
and a concrete two-sample batch. -/
theorem resolution_parsing_witness :
    (workerNoise "(Extrapolation) 1024x2048" 1 0).map Tensor.shape
      = some [2, 4, 2048 / 8, 1024 / 8] ∧
    finalImage (fun n => Image.mk n) [7, 8] = some (Image.mk 7) ∧
    parseResolution "(Extrapolation) 1024x2048" = some (1024, 2048) :=
  resolution_parsing_and_noise_shape "(Extrapolation) 1024x2048" 1024 2048
    (by decide) 1 0 (fun n => Image.mk n) [7, 8] 7 rfl

/-- A row of the token id tensor (demo.py lines 138-141):
`torch.zeros([.., L])` followed by `row[:len(xs)] = xs` equals `xs`
padded with zeros up to `L` (given `len(xs) ≤ L`). -/
def padRow (L : Nat) (xs : List Int) : List Int :=
  xs ++ List.replicate (L - xs.length) 0

/-- A row of the boolean mask (demo.py lines 139, 142-143):
`torch.zeros_like(...)` (all `False`) followed by `row[:n] = True`. -/
def maskRow (L n : Nat) : List Bool :=
  List.replicate n true ++ List.replicate (L - n) false

/-- Lines 136-143 of demo.py: the token tensor `tok` of shape
`[2, max(len(cap_tok), len(null_cap_tok))]` holding the caption tokens
in row 0 and the empty-caption tokens in row 1, and the boolean mask
`tok_mask` true exactly on the assigned positions. -/
def buildTok (capTok nullTok : List Int) :
    List (List Int) × List (List Bool) :=
  let L := max capTok.length nullTok.length
  ([padRow L capTok, padRow L nullTok],
   [maskRow L capTok.length, maskRow L nullTok.length])

lemma getD_replicate_self {α : Type} (d : α) (m i : Nat) :
    (List.replicate m d).getD i d = d := by
  induction m generalizing i with
  | zero => cases i <;> rfl
  | succ n ih => cases i with
    | zero => rfl
    | succ j => exact ih j

lemma getD_replicate_lt {α : Type} (a d : α) (m i : Nat) (h : i < m) :
    (List.replicate m a).getD i d = a := by
  induction m generalizing i with
  | zero => omega
  | succ n ih => cases i with
    | zero => rfl
    | succ j => exact ih j (by omega)

lemma padRow_getD (L : Nat) (xs : List Int) (i : Nat) :
    (padRow L xs).getD i 0 = if i < xs.length then xs.getD i 0 else 0 := by
  unfold padRow
  by_cases h : i < xs.length
  · rw [if_pos h, List.getD_append _ _ _ _ h]
  · rw [if_neg h, List.getD_append_right _ _ _ _ (by omega),
      getD_replicate_self]

lemma maskRow_getD (L n i : Nat) :
    (maskRow L n).getD i false = decide (i < n) := by
  unfold maskRow
  by_cases h : i < n
  · rw [List.getD_append _ _ _ _ (by simpa using h),
      getD_replicate_lt _ _ _ _ h]
    simp [h]
  · rw [List.getD_append_right _ _ _ _ (by simp; omega),
      getD_replicate_self]
    simp [h]

/-- C10: the token tensor has shape
`[2, max(len(cap_tok), len(null_cap_tok))]`, row 0 holds the caption
token ids in its first `len(cap_tok)` positions and row 1 the
empty-caption token ids in its first `len(null_cap_tok)` positions with
zeros elsewhere, and the mask is true exactly on the positions holding
real tokens in each row. -/
theorem conditioning_matrix_layout (capTok nullTok : List Int) (i : Nat) :
    (buildTok capTok nullTok).1.length = 2 ∧
    (buildTok capTok nullTok).2.length = 2 ∧
    (∀ row ∈ (buildTok capTok nullTok).1,
      row.length = max capTok.length nullTok.length) ∧
    (∀ row ∈ (buildTok capTok nullTok).2,
      row.length = max capTok.length nullTok.length) ∧
    ((buildTok capTok nullTok).1.getD 0 []).getD i 0
      = (if i < capTok.length then capTok.getD i 0 else 0) ∧
    ((buildTok capTok nullTok).1.getD 1 []).getD i 0
      = (if i < nullTok.length then nullTok.getD i 0 else 0) ∧
    ((buildTok capTok nullTok).2.getD 0 []).getD i false
      = decide (i < capTok.length) ∧
    ((buildTok capTok nullTok).2.getD 1 []).getD i false
      = decide (i < nullTok.length) := by
  refine ⟨rfl, rfl, ?_, ?_, ?_, ?_, ?_, ?_⟩
  · intro row hrow
    simp only [buildTok, List.mem_cons, List.not_mem_nil, or_false] at hrow
    rcases hrow with rfl | rfl <;>
      simp [padRow, List.length_append, List.length_replicate]
  · intro row hrow
    simp only [buildTok, List.mem_cons, List.not_mem_nil, or_false] at hrow
    rcases hrow with rfl | rfl <;>
      simp [maskRow, List.length_append, List.length_replicate]
  · exact padRow_getD _ capTok i
  · exact padRow_getD _ nullTok i
  · exact maskRow_getD _ _ i
  · exact maskRow_getD _ _ i

end Lumina
